import Mathlib

/-!
Verification of the Thunderstore package-listing subsystem.

The definitions below are a shallow embedding of
`django/thunderstore/api/cyberstorm/views/packages.py` (the cyberstorm
package-list filter pipeline) and, where the repository provides only tests
for a component, models of the v1 package cache derived from the
specification.  Django querysets are embedded as Lean lists; the
`exclude(~Q(...))` idiom on a multi-valued relation is embedded as
"keep the row iff some related row satisfies the condition", and plain
`exclude(Q(...))` as "keep the row iff no related row satisfies the
condition", matching Django's subquery semantics for multi-valued lookups.
-/

namespace Thunderstore

/-- Review status of a package listing
(`thunderstore.community.consts.PackageListingReviewStatus`). -/
inductive PackageListingReviewStatus where
  | unreviewed
  | approved
  | rejected
  deriving DecidableEq, Repr

/-- A package listing: the association of a package with a community,
carrying the community-scoped moderation and category metadata used by the
filter pipeline (`community_listings` rows). -/
structure PackageListing where
  communityPk : Nat
  reviewStatus : PackageListingReviewStatus
  hasNsfwContent : Bool
  /-- Primary keys of the categories attached to this listing. -/
  categories : List Int
  deriving DecidableEq, Repr

/-- A package row together with the single-valued related columns and the
annotations the pipeline reads: `name`, `owner__name`,
`latest__description`, `is_deprecated`, `is_pinned`, `date_created`,
`date_updated`, the annotated `download_count` and `rating_count`, and the
multi-valued `community_listings` relation. -/
structure Package where
  pk : Nat
  name : String
  ownerName : String
  latestDescription : String
  isActive : Bool
  isDeprecated : Bool
  isPinned : Bool
  dateCreated : Nat
  dateUpdated : Nat
  downloadCount : Nat
  ratingCount : Nat
  communityListings : List PackageListing
  deriving DecidableEq, Repr

/-- A community (`thunderstore.community.models.Community`): only the fields
the pipeline reads. -/
structure Community where
  pk : Nat
  requirePackageListingApproval : Bool
  deriving DecidableEq, Repr

/-- A `PackageListingSection`: a named preset of required/excluded category
sets, looked up by uuid. -/
structure PackageListingSection where
  uuid : String
  requireCategories : List Int
  excludeCategories : List Int
  deriving DecidableEq, Repr

/-- Case-insensitive substring test over the character lists of two strings:
`icontainsChars needle haystack` holds when `needle` occurs inside
`haystack` ignoring case.  This embeds Django's `__icontains` lookup. -/
def charsPrefixOf : List Char → List Char → Bool
  | [], _ => true
  | _ :: _, [] => false
  | a :: as, b :: bs => a == b && charsPrefixOf as bs

/-- Occurrence of `needle` anywhere in `haystack` (character lists). -/
def charsContain (needle : List Char) : List Char → Bool
  | [] => charsPrefixOf needle []
  | c :: rest => charsPrefixOf needle (c :: rest) || charsContain needle rest

/-- Django `field__icontains=part`: case-insensitive containment. -/
def icontains (haystack part : String) : Bool :=
  charsContain (part.data.map Char.toLower) (haystack.data.map Char.toLower)

/-- Split a character list at every space, keeping empty pieces, as Python
`str.split(" ")` does. -/
def splitCharsOnSpace : List Char → List (List Char)
  | [] => [[]]
  | c :: rest =>
    if c = ' ' then [] :: splitCharsOnSpace rest
    else
      match splitCharsOnSpace rest with
      | [] => [[c]]
      | g :: gs => (c :: g) :: gs

/-- Python `query.split(" ")`: split at every space character, keeping
empty pieces. -/
def splitOnSpace (s : String) : List String :=
  (splitCharsOnSpace s.data).map (fun cs => String.mk cs)

/-- Accumulate decimal digits; any non-digit character fails the parse. -/
def natOfDigits : List Char → Nat → Option Nat
  | [], acc => some acc
  | c :: rest, acc =>
    if c.isDigit then natOfDigits rest (acc * 10 + (c.toNat - 48))
    else none

/-- Integer parsing as performed on a query-string value: an optional minus
sign followed by at least one decimal digit. -/
def parseInt (s : String) : Option Int :=
  match s.data with
  | [] => none
  | '-' :: rest =>
    match rest with
    | [] => none
    | _ => (natOfDigits rest 0).map (fun n => -(n : Int))
  | cs => (natOfDigits cs 0).map (fun n => (n : Int))

/-- The caller-selectable ordering keys (`ORDER_ARGS` keys). -/
inductive OrderKey where
  | lastUpdated
  | mostDownloaded
  | newest
  | topRated
  deriving DecidableEq, Repr

/-- The request string for each ordering key (`ORDER_ARGS` keys:
"last-updated", "most-downloaded", "newest", "top-rated"). -/
def orderKeyOfString (s : String) : Option OrderKey :=
  if s = "last-updated" then some .lastUpdated
  else if s = "most-downloaded" then some .mostDownloaded
  else if s = "newest" then some .newest
  else if s = "top-rated" then some .topRated
  else none

/-- The column each `ORDER_ARGS` value sorts on (all descending):
`-date_updated`, `-download_count`, `-date_created`, `-rating_count`. -/
def orderValue : OrderKey → Package → Nat
  | .lastUpdated, p => p.dateUpdated
  | .mostDownloaded, p => p.downloadCount
  | .newest, p => p.dateCreated
  | .topRated, p => p.ratingCount

/-- Validated query parameters, the `validated_data` shape produced by
`PackageListRequestSerializer`. -/
structure QueryParams where
  deprecated : Bool
  excludedCategories : List Int
  includedCategories : List Int
  nsfw : Bool
  ordering : OrderKey
  page : Nat
  q : Option String
  sectionUuid : Option String
  deriving DecidableEq, Repr

/-- Embedding of `get_community_package_queryset`: active packages having a
listing in the community
(`Package.objects.active().exclude(~Q(community_listings__community__pk=pk))`). -/
def get_community_package_queryset (community : Community)
    (packages : List Package) : List Package :=
  (packages.filter (fun p => p.isActive)).filter
    (fun p => p.communityListings.any (fun l => l.communityPk == community.pk))

/-- Embedding of `filter_deprecated`: when `show_deprecated` is false,
`exclude(is_deprecated=True)`. -/
def filter_deprecated (show_deprecated : Bool)
    (queryset : List Package) : List Package :=
  if show_deprecated then queryset
  else queryset.filter (fun p => !p.isDeprecated)

/-- Embedding of `filter_nsfw`: when `show_nsfw` is false,
`exclude(community_listings__has_nsfw_content=True)` removes packages any of
whose listings is marked NSFW. -/
def filter_nsfw (show_nsfw : Bool) (queryset : List Package) : List Package :=
  if show_nsfw then queryset
  else queryset.filter (fun p => !p.communityListings.any (fun l => l.hasNsfwContent))

/-- Embedding of `filter_in_categories`:
`exclude(~Q(community_listings__categories__id__in=category_ids))` keeps a
package iff some listing category is among `category_ids` (OR-join). -/
def filter_in_categories (category_ids : List Int)
    (queryset : List Package) : List Package :=
  if category_ids.isEmpty then queryset
  else queryset.filter (fun p =>
    p.communityListings.any (fun l => l.categories.any (fun c => category_ids.contains c)))

/-- Embedding of `filter_not_in_categories`:
`exclude(community_listings__categories__id__in=category_ids)` removes a
package iff some listing category is among `category_ids`. -/
def filter_not_in_categories (category_ids : List Int)
    (queryset : List Package) : List Package :=
  if category_ids.isEmpty then queryset
  else queryset.filter (fun p =>
    !p.communityListings.any (fun l => l.categories.any (fun c => category_ids.contains c)))

/-- Embedding of `filter_by_section`: resolve the uuid against the known
sections; a missing section degrades to empty required/excluded category
lists; then delegate to the category filters. -/
def filter_by_section (section_uuid : Option String)
    (sections : List PackageListingSection)
    (queryset : List Package) : List Package :=
  match section_uuid with
  | none => queryset
  | some u =>
    if u = "" then queryset
    else
      let found := sections.find? (fun s => s.uuid == u)
      let required := match found with
        | none => []
        | some s => s.requireCategories
      let excluded := match found with
        | none => []
        | some s => s.excludeCategories
      filter_not_in_categories excluded (filter_in_categories required queryset)

/-- The `search_fields` tuple of `filter_by_query`:
`("name", "owner__name", "latest__description")`. -/
def search_fields : List (Package → String) :=
  [Package.name, Package.ownerName, Package.latestDescription]

/-- Embedding of `filter_by_query`.  The source accumulates
`icontains_query &= ~Q(field__icontains=part)` over every part and every
field, then evaluates `queryset.exclude(icontains_query)`: a row is kept iff
the accumulated conjunction of negations is false on it.  When `parts` is
empty the accumulated `Q()` is empty and `exclude` is a no-op. -/
def filter_by_query (query : Option String)
    (queryset : List Package) : List Package :=
  match query with
  | none => queryset
  | some qstr =>
    if qstr = "" then queryset
    else
      let parts := (splitOnSpace qstr).filter (fun x => x ≠ "")
      if parts.isEmpty then queryset
      else queryset.filter (fun p =>
        !(parts.all (fun part =>
          search_fields.all (fun field => !(icontains (field p) part)))))

/-- Embedding of `filter_by_review_status`: `review_statuses` is
`[approved]`, extended with `unreviewed` when approval is not required;
`exclude(~Q(community_listings__review_status__in=review_statuses))` keeps a
package iff some listing has an allowed status. -/
def filter_by_review_status (require_approval : Bool)
    (queryset : List Package) : List Package :=
  let review_statuses : List PackageListingReviewStatus :=
    if require_approval then [.approved] else [.approved, .unreviewed]
  queryset.filter (fun p =>
    p.communityListings.any (fun l => review_statuses.contains l.reviewStatus))

/-- Comparison implementing the `order_by` argument chain
`("-is_pinned", "is_deprecated", ORDER_ARGS[ordering], "-date_updated",
"-pk")`: pinned first, deprecated last, then the selected key descending,
then `date_updated` descending, then `pk` descending. -/
def packageCmp (k : OrderKey) (a b : Package) : Ordering :=
  (compare b.isPinned.toNat a.isPinned.toNat).then <|
  (compare a.isDeprecated.toNat b.isDeprecated.toNat).then <|
  (compare (orderValue k b) (orderValue k a)).then <|
  (compare b.dateUpdated a.dateUpdated).then <|
  compare b.pk a.pk

/-- The boolean "comes no later than" relation induced by `packageCmp`. -/
def packageLE (k : OrderKey) (a b : Package) : Bool :=
  packageCmp k a b ≠ .gt

/-- The filter chain of `BasePackageListAPIView.filter_queryset` before the
final `order_by`: rebuild the community-scoped queryset, then apply, in
source order, the review-status, deprecated, NSFW, included-category,
excluded-category, section and free-text filters (innermost first). -/
def filtered_queryset (community : Community)
    (sections : List PackageListingSection)
    (params : QueryParams)
    (packages : List Package) : List Package :=
  filter_by_query params.q
    (filter_by_section params.sectionUuid sections
      (filter_not_in_categories params.excludedCategories
        (filter_in_categories params.includedCategories
          (filter_nsfw params.nsfw
            (filter_deprecated params.deprecated
              (filter_by_review_status community.requirePackageListingApproval
                (get_community_package_queryset community packages)))))))

/-- Embedding of `BasePackageListAPIView.filter_queryset`: the filter chain
followed by a sort realizing the `order_by` chain. -/
def filter_queryset (community : Community)
    (sections : List PackageListingSection)
    (params : QueryParams)
    (packages : List Package) : List Package :=
  (filtered_queryset community sections params packages).insertionSort
    (fun a b => packageLE params.ordering a b = true)

/-- Descending comparison on naturals, the effect of a `-`-prefixed
`order_by` argument. -/
def descNat (a b : Nat) : Ordering := compare b a

instance : Batteries.OrientedCmp descNat where
  symm x y := @Batteries.OrientedCmp.symm Nat compare _ y x

instance : Batteries.TransCmp descNat where
  le_trans h1 h2 := @Batteries.TransCmp.le_trans Nat compare _ _ _ _ h2 h1

instance (k : OrderKey) : Batteries.TransCmp (packageCmp k) := by
  have h : packageCmp k =
      compareLex (Ordering.byKey (fun p : Package => p.isPinned.toNat) descNat)
        (compareLex (Ordering.byKey (fun p : Package => p.isDeprecated.toNat) compare)
          (compareLex (Ordering.byKey (orderValue k) descNat)
            (compareLex (Ordering.byKey Package.dateUpdated descNat)
              (Ordering.byKey Package.pk descNat)))) := rfl
  rw [h]
  infer_instance

instance (k : OrderKey) : IsTotal Package (fun a b => packageLE k a b = true) where
  total a b := by
    simp only [packageLE, decide_eq_true_eq]
    by_cases h : packageCmp k a b = .gt
    · right
      intro h'
      have hlt := Batteries.OrientedCmp.cmp_eq_gt.mp h
      rw [h'] at hlt
      exact Ordering.noConfusion hlt
    · left; exact h

instance (k : OrderKey) : IsTrans Package (fun a b => packageLE k a b = true) where
  trans a b c hab hbc := by
    simp only [packageLE, decide_eq_true_eq] at *
    exact Batteries.TransCmp.le_trans hab hbc

/-- The ordering requested by the spec sentence, stated directly: pinned
packages first, deprecated packages last, then the selected order key
descending, then last-updated descending, then identifier (`pk`)
descending; `a` may precede `b` exactly when this lexicographic chain does
not place `a` strictly after `b`. -/
def comesBeforeOrTied (k : OrderKey) (a b : Package) : Prop :=
  b.isPinned.toNat < a.isPinned.toNat
  ∨ (a.isPinned = b.isPinned ∧ (a.isDeprecated.toNat < b.isDeprecated.toNat
    ∨ (a.isDeprecated = b.isDeprecated ∧ (orderValue k b < orderValue k a
      ∨ (orderValue k a = orderValue k b ∧ (b.dateUpdated < a.dateUpdated
        ∨ (a.dateUpdated = b.dateUpdated ∧ b.pk ≤ a.pk)))))))

/-- Raw query parameters of a request, before validation.  List-valued
parameters (`excluded_categories`, `included_categories`) arrive as the list
of all values given for the key. -/
structure RawRequest where
  deprecated : Option String
  excludedCategories : List String
  includedCategories : List String
  nsfw : Option String
  ordering : Option String
  page : Option String
  q : Option String
  sectionUuid : Option String
  deriving DecidableEq, Repr

/-- Boolean query-parameter parsing for `serializers.BooleanField` (the
accepted spellings relevant here). -/
def parseBool (s : String) : Option Bool :=
  if s = "true" ∨ s = "True" ∨ s = "1" then some true
  else if s = "false" ∨ s = "False" ∨ s = "0" then some false
  else none

/-- Ascending integer sort used when `_get_validated_query_params` calls
`value.sort()` on list-valued parameters. -/
def sortInts (l : List Int) : List Int :=
  l.insertionSort (fun a b => a ≤ b)

/-- Parse every element of a list-valued parameter as an integer
(`ListField(child=IntegerField())`), failing if any element is malformed. -/
def parseIntList : List String → Option (List Int)
  | [] => some []
  | s :: rest =>
    match parseInt s, parseIntList rest with
    | some n, some ns => some (n :: ns)
    | _, _ => none

/-- Embedding of `PackageListRequestSerializer` validation composed with the
list-sorting step of `_get_validated_query_params`: each field falls back to
its declared default when absent, and any malformed field rejects the whole
request with a client error (`is_valid(raise_exception=True)`). -/
def validateRequest (raw : RawRequest) : Except String QueryParams := do
  let deprecated ← match raw.deprecated with
    | none => pure false
    | some s => match parseBool s with
      | some b => pure b
      | none => throw "deprecated: invalid boolean"
  let excluded ← match parseIntList raw.excludedCategories with
    | some ns => pure ns
    | none => throw "excluded_categories: invalid integer"
  let included ← match parseIntList raw.includedCategories with
    | some ns => pure ns
    | none => throw "included_categories: invalid integer"
  let nsfw ← match raw.nsfw with
    | none => pure false
    | some s => match parseBool s with
      | some b => pure b
      | none => throw "nsfw: invalid boolean"
  let ordering ← match raw.ordering with
    | none => pure OrderKey.lastUpdated
    | some s => match orderKeyOfString s with
      | some k => pure k
      | none => throw "ordering: not a valid choice"
  let page ← match raw.page with
    | none => pure 1
    | some s => match parseInt s with
      | some n => if 1 ≤ n then pure n.toNat else throw "page: below minimum"
      | none => throw "page: invalid integer"
  pure {
    deprecated := deprecated
    excludedCategories := sortInts excluded
    includedCategories := sortInts included
    nsfw := nsfw
    ordering := ordering
    page := page
    q := raw.q
    sectionUuid := raw.sectionUuid
  }

/-- Embedding of `list_packages` over validated input: validation happens
first, and only a valid request reaches the filter pipeline. -/
def list_packages (community : Community)
    (sections : List PackageListingSection)
    (packages : List Package)
    (raw : RawRequest) : Except String (List Package) := do
  let params ← validateRequest raw
  pure (filter_queryset community sections params packages)

/-- Fixed page size of `PackageListPaginator`. -/
def PAGE_SIZE : Nat := 20

/-- One result page: the sliced items, the page number, the total result
count and the total number of pages (Django `Paginator` state). -/
structure PageResult where
  items : List Package
  number : Nat
  count : Nat
  numPages : Nat
  deriving DecidableEq, Repr

/-- Embedding of Django pagination with `PageNumberPagination`: the number
of pages is `ceil(count / page_size)` but at least 1; an out-of-range page
number is a "not found" failure (`none`). -/
def paginate (page_size num : Nat) (results : List Package) : Option PageResult :=
  let count := results.length
  let num_pages := max 1 ((count + page_size - 1) / page_size)
  if 1 ≤ num ∧ num ≤ num_pages then
    some ⟨(results.drop ((num - 1) * page_size)).take page_size, num, count, num_pages⟩
  else none

/-- Python `str` rendering of a boolean, as produced by
`urlencode(params, doseq=True)` on a validated boolean. -/
def boolRepr : Bool → String
  | true => "True"
  | false => "False"

/-- The request-facing string of each ordering key. -/
def orderKeyString : OrderKey → String
  | .lastUpdated => "last-updated"
  | .mostDownloaded => "most-downloaded"
  | .newest => "newest"
  | .topRated => "top-rated"

/-- One `key=value` pair of a query string. -/
def encodePair (k v : String) : String := k ++ "=" ++ v

/-- Embedding of `urlencode(params, doseq=True)` over the validated
parameters in serializer field order; a list-valued parameter contributes
one `key=value` pair per element, and absent optional fields contribute
nothing. -/
def urlencodeParams (params : QueryParams) : String :=
  String.intercalate "&" (
    [encodePair "deprecated" (boolRepr params.deprecated)]
    ++ params.excludedCategories.map (fun c => encodePair "excluded_categories" (toString c))
    ++ params.includedCategories.map (fun c => encodePair "included_categories" (toString c))
    ++ [encodePair "nsfw" (boolRepr params.nsfw),
        encodePair "ordering" (orderKeyString params.ordering),
        encodePair "page" (toString params.page)]
    ++ (match params.q with | none => [] | some s => [encodePair "q" s])
    ++ (match params.sectionUuid with | none => [] | some s => [encodePair "section" s]))

/-- Embedding of `BasePackageListAPIView._get_sibling_pages`: previous/next
URLs are built from the base URL and the validated parameters with only the
`page` value replaced, and only when the corresponding sibling page
exists. -/
def get_sibling_pages (base_url : String) (params : QueryParams)
    (page : PageResult) : Option String × Option String :=
  let previous_url :=
    if 1 < page.number then
      some (base_url ++ "?" ++ urlencodeParams { params with page := page.number - 1 })
    else none
  let next_url :=
    if page.number < page.numPages then
      some (base_url ++ "?" ++ urlencodeParams { params with page := page.number + 1 })
    else none
  (previous_url, next_url)

/-- The response shape `{count, previous, next, results}` of the listing
endpoint. -/
structure ListResponse where
  count : Nat
  previousUrl : Option String
  nextUrl : Option String
  results : List Package
  deriving DecidableEq, Repr

/-- Embedding of `BasePackageListAPIView.list`: validate, filter, paginate,
then attach the sibling-page links; an out-of-range page yields `none`
("not found"). -/
def list_endpoint (base_url : String) (community : Community)
    (sections : List PackageListingSection)
    (packages : List Package)
    (raw : RawRequest) : Except String (Option ListResponse) := do
  let params ← validateRequest raw
  let queryset := filter_queryset community sections params packages
  match paginate PAGE_SIZE params.page queryset with
  | none => pure none
  | some page =>
    pure (some ⟨page.count, (get_sibling_pages base_url params page).1,
      (get_sibling_pages base_url params page).2, page.items⟩)

/-- Modelled from the spec: the `APIV1PackageCache` model itself is not under
`src/` (only its test `test_api_v1.py` is).  A cache entry carries the
opaque compressed payload, `content_type`, `content_encoding`, and
`last_modified` stored at whole-second precision ("timestamp comparisons
must truncate to second precision").  `cacheId` stands for the entry's
database identity. -/
structure CacheEntry where
  cacheId : Nat
  content : String
  contentType : String
  contentEncoding : String
  lastModified : Nat
  deriving DecidableEq, Repr

/-- Modelled from the spec: one community's cache history as an append-only
log of entries; the latest entry is the one active entry served to
readers. -/
def CacheLog := List CacheEntry

/-- Modelled from the spec: `get_latest_for_community` returns the most
recent cache entry, or `None` if no regeneration has ever occurred. -/
def get_latest (log : CacheLog) : Option CacheEntry :=
  List.getLast? log

/-- Modelled from the spec: `regenerate(community_ref)` appends a fresh
entry stamped with the current time and a fresh identity, superseding the
prior entry. -/
def regenerate (now : Nat) (content contentType contentEncoding : String)
    (log : CacheLog) : CacheLog :=
  List.concat log ⟨log.length, content, contentType, contentEncoding, now⟩

/-- Response of the cached v1 package-list endpoint.  Header values are
carried in stored form: `last_modified` at second precision (its HTTP-date
rendering is injective on whole seconds). -/
inductive V1Response where
  | serviceUnavailable
  | notModified
  | payload (content contentType contentEncoding : String) (lastModified : Nat)
  deriving DecidableEq, Repr

/-- Modelled from the spec: the cached endpoint.  With no cache entry it
responds "service unavailable" (503).  With an entry present, a request
whose `If-Modified-Since` timestamp (already truncated to whole seconds) is
at least the entry's `last_modified` gets "not modified" (304) with no
body; any other request gets 200 with the compressed payload and the
entry's stored header metadata. -/
def handle_v1_request (ifModifiedSince : Option Nat) (log : CacheLog) : V1Response :=
  match get_latest log with
  | none => V1Response.serviceUnavailable
  | some e =>
    match ifModifiedSince with
    | some t =>
      if e.lastModified ≤ t then V1Response.notModified
      else V1Response.payload e.content e.contentType e.contentEncoding e.lastModified
    | none => V1Response.payload e.content e.contentType e.contentEncoding e.lastModified

/-- Modelled from the spec: run a sequence of regenerations (with fixed
payload metadata) at the given clock readings, oldest first. -/
def runRegens (content contentType contentEncoding : String)
    (times : List Nat) : CacheLog :=
  times.foldl (fun log t => regenerate t content contentType contentEncoding log) []

/-- Modelled from the spec: the cache-bust conditions
(`thunderstore.cache.enums.CacheBustCondition`); the package-cache tests
exercise only `any_package_updated`. -/
inductive CacheBustCondition where
  | any_package_updated
  deriving DecidableEq, Repr

/-- A package version row as touched by the package-cache tests: its
download counter and active flag. -/
structure PackageVersion where
  downloads : Nat
  isActive : Bool
  deriving DecidableEq, Repr

/-- Modelled from the spec: `PackageVersion._increase_download_counter`
bumps the counter with a direct database update and emits no cache
invalidation (the model code under `thunderstore.repository.models.package`
is not in `src/`; behaviour fixed by
`test_package_cache_not_invalidated_on_download_counter_increase`). -/
def increase_download_counter (v : PackageVersion) :
    PackageVersion × List CacheBustCondition :=
  ({ v with downloads := v.downloads + 1 }, [])

/-- Modelled from the spec: saving a package version (e.g. setting
`is_active = False` to hide it) calls `invalidate_cache_on_commit_async`
with `CacheBustCondition.any_package_updated` (behaviour fixed by
`test_package_cache_is_invalidated_on_version_hidden`). -/
def save_version (v : PackageVersion) (is_active : Bool) :
    PackageVersion × List CacheBustCondition :=
  ({ v with isActive := is_active }, [CacheBustCondition.any_package_updated])

/-- Modelled from the spec: deleting a package listing calls
`invalidate_cache_on_commit_async` with
`CacheBustCondition.any_package_updated` (behaviour fixed by
`test_package_cache_is_invalidated_on_listing_delete`). -/
def delete_listing (_listing : PackageListing) : List CacheBustCondition :=
  [CacheBustCondition.any_package_updated]

/-- A community without mandatory listing approval, used in concrete
scenarios. -/
def exCommunity : Community := ⟨1, false⟩

/-- An approved, non-NSFW listing in `exCommunity`. -/
def approvedListing : PackageListing := ⟨1, .approved, false, []⟩

/-- An approved listing flagged as NSFW in `exCommunity`. -/
def nsfwListing : PackageListing := ⟨1, .approved, true, []⟩

/-- A plain active package whose name contains "foo" but which matches the
token "bar" in no search field. -/
def exPkg : Package :=
  ⟨1, "FooMod", "alice", "does things", true, false, false, 10, 20, 5, 2,
    [approvedListing]⟩

/-- A deprecated package (scenario package P1). -/
def pDeprecated : Package :=
  ⟨11, "DepMod", "bob", "old", true, true, false, 1, 3, 0, 0, [approvedListing]⟩

/-- A package whose listing is NSFW (scenario package P2). -/
def pNsfw : Package :=
  ⟨12, "NsfwMod", "carol", "spicy", true, false, false, 2, 2, 0, 0, [nsfwListing]⟩

/-- A plain package (scenario package P3). -/
def pPlain : Package :=
  ⟨13, "PlainMod", "dave", "plain", true, false, false, 3, 1, 0, 0, [approvedListing]⟩

/-- The validated parameters of a request with no flags set: every field at
its declared default. -/
def defaultParams : QueryParams :=
  ⟨false, [], [], false, .lastUpdated, 1, none, none⟩

/-- A raw request whose ordering key is not one of the four known
choices. -/
def rawBadOrdering : RawRequest :=
  ⟨none, [], [], none, some "alphabetical", none, none, none⟩

/-- A raw request with a non-integer category id. -/
def rawBadCategory : RawRequest :=
  ⟨none, ["7", "x"], [], none, none, none, none, none⟩

/-- A raw request asking for page 0. -/
def rawBadPage : RawRequest :=
  ⟨none, [], [], none, none, some "0", none, none⟩

/-- A concrete cache entry regenerated at second 100. -/
def cacheA : CacheEntry := ⟨0, "payload", "application/json", "gzip", 100⟩

/-- A raw request with no parameters at all. -/
def rawEmpty : RawRequest := ⟨none, [], [], none, none, none, none, none⟩

/-- A raw request whose excluded-category list is given as "3", "1". -/
def rawPermA : RawRequest := ⟨none, ["3", "1"], [], none, none, none, none, none⟩

/-- The same raw request with the excluded-category values permuted. -/
def rawPermB : RawRequest := ⟨none, ["1", "3"], [], none, none, none, none, none⟩

/-- The default validated parameters asking for page 2. -/
def paramsPage2 : QueryParams := { defaultParams with page := 2 }

theorem packageLE_iff_comesBeforeOrTied (k : OrderKey) (a b : Package) :
    packageLE k a b = true ↔ comesBeforeOrTied k a b := by
  simp only [packageLE, decide_eq_true_eq, packageCmp, comesBeforeOrTied, ne_eq,
    Ordering.then_eq_gt, not_or, not_and, Nat.compare_eq_gt, Nat.compare_eq_eq]
  cases hpa : a.isPinned <;> cases hpb : b.isPinned <;>
    cases hda : a.isDeprecated <;> cases hdb : b.isDeprecated <;>
      simp_all [Bool.toNat] <;> omega

/-- C3: for every request, the list produced by `filter_queryset` is
ordered by pinned-first, deprecated-last, the caller-selected key
descending, last-updated descending, then identifier (`pk`) descending,
and is a permutation of the filtered (unsorted) queryset. -/
theorem c3_result_ordering (community : Community)
    (sections : List PackageListingSection) (params : QueryParams)
    (packages : List Package) :
    List.Pairwise (comesBeforeOrTied params.ordering)
      (filter_queryset community sections params packages)
    ∧ (filter_queryset community sections params packages).Perm
      (filtered_queryset community sections params packages) := by
  refine ⟨?_, List.perm_insertionSort _ _⟩
  have h := List.sorted_insertionSort (fun a b => packageLE params.ordering a b = true)
    (filtered_queryset community sections params packages)
  exact List.Pairwise.imp
    (fun hab => (packageLE_iff_comesBeforeOrTied params.ordering _ _).mp hab) h

/-- C1 is false on the code: for the query "foo bar", the token "bar"
matches no search field of `exPkg`, yet `filter_by_query` returns the
package, because the accumulated `exclude` keeps a row as soon as some
token matches some field. -/
theorem c1_counterexample :
    (splitOnSpace "foo bar").filter (fun x => x ≠ "") = ["foo", "bar"]
    ∧ search_fields.all (fun field => !(icontains (field exPkg) "bar")) = true
    ∧ filter_by_query (some "foo bar") [exPkg] = [exPkg] :=
  ⟨by decide, by decide, by decide⟩

/-- C1 (amended): for a query with at least one nonempty token, a package
is returned exactly when at least one token matches at least one of
name/owner/description case-insensitively (OR across tokens, OR across
fields). -/
theorem c1_query_filter_or_semantics (qstr : String) (queryset : List Package)
    (p : Package)
    (hne : (splitOnSpace qstr).filter (fun x => x ≠ "") ≠ []) :
    p ∈ filter_by_query (some qstr) queryset ↔
      p ∈ queryset ∧ ∃ part ∈ (splitOnSpace qstr).filter (fun x => x ≠ ""),
        ∃ field ∈ search_fields, icontains (field p) part = true := by
  have hq : qstr ≠ "" := by
    intro h
    subst h
    exact hne (by decide)
  simp only [filter_by_query, hq, if_false, ite_false, if_neg]
  rw [if_neg (by simpa [List.isEmpty_iff] using hne)]
  simp [List.mem_filter, List.all_eq_false, and_assoc]

/-- Witness for the amended C1 at a concrete input: the single-token query
"foo" matches `exPkg` through its name. -/
theorem c1_query_filter_or_semantics_witness :
    exPkg ∈ filter_by_query (some "foo") [exPkg] :=
  (c1_query_filter_or_semantics "foo" [exPkg] exPkg (by decide)).mpr
    ⟨by decide, "foo", by decide, Package.name, by simp [search_fields], by decide⟩

/-- C2: with no cache entry the endpoint answers "service unavailable";
with a latest entry, an `If-Modified-Since` at or after `last_modified`
gets "not modified" with no body, and any other request gets the payload
with headers equal to the entry's stored metadata. -/
theorem c2_v1_cache_http_semantics :
    (get_latest [] = none
      ∧ ∀ ims, handle_v1_request ims [] = V1Response.serviceUnavailable)
    ∧ (∀ (log : CacheLog) (e : CacheEntry) (t : Nat), get_latest log = some e →
        ((e.lastModified ≤ t →
            handle_v1_request (some t) log = V1Response.notModified)
          ∧ (t < e.lastModified →
            handle_v1_request (some t) log =
              V1Response.payload e.content e.contentType e.contentEncoding e.lastModified)))
    ∧ (∀ (log : CacheLog) (e : CacheEntry), get_latest log = some e →
        handle_v1_request none log =
          V1Response.payload e.content e.contentType e.contentEncoding e.lastModified) := by
  refine ⟨⟨rfl, fun ims => by cases ims <;> rfl⟩, ?_, ?_⟩
  · intro log e t h
    constructor
    · intro hle
      simp [handle_v1_request, h, hle]
    · intro hlt
      simp [handle_v1_request, h, Nat.not_le.mpr hlt]
  · intro log e h
    simp [handle_v1_request, h]

/-- Witness for C2 at a concrete cache log. -/
theorem c2_v1_cache_http_semantics_witness :
    handle_v1_request (some 100) [cacheA] = V1Response.notModified
    ∧ handle_v1_request (some 99) [cacheA] =
        V1Response.payload "payload" "application/json" "gzip" 100
    ∧ handle_v1_request none [cacheA] =
        V1Response.payload "payload" "application/json" "gzip" 100 :=
  ⟨(c2_v1_cache_http_semantics.2.1 [cacheA] cacheA 100 rfl).1 (by decide),
   (c2_v1_cache_http_semantics.2.1 [cacheA] cacheA 99 rfl).2 (by decide),
   c2_v1_cache_http_semantics.2.2 [cacheA] cacheA rfl⟩

theorem foldl_regenerate_map (content contentType contentEncoding : String) :
    ∀ (times : List Nat) (log : CacheLog),
      ((times.foldl (fun l t => regenerate t content contentType contentEncoding l)
          log).map CacheEntry.lastModified)
        = log.map CacheEntry.lastModified ++ times := by
  intro times
  induction times with
  | nil => intro log; simp
  | cons t ts ih =>
    intro log
    rw [List.foldl_cons, ih]
    simp [regenerate, List.concat_eq_append]

/-- C4: regeneration timestamps taken at a non-decreasing clock give a
non-decreasing `last_modified` sequence, and a regeneration at least one
second after the latest entry's timestamp yields a strictly later
`last_modified` and a distinct entry. -/
theorem c4_last_modified_monotone (content contentType contentEncoding : String) :
    (∀ times : List Nat, times.Chain' (· ≤ ·) →
      ((runRegens content contentType contentEncoding times).map
          CacheEntry.lastModified).Chain' (· ≤ ·))
    ∧ (∀ (log : CacheLog) (prev : CacheEntry) (t : Nat),
        get_latest log = some prev → prev.lastModified + 1 ≤ t →
        get_latest (regenerate t content contentType contentEncoding log)
            = some ⟨log.length, content, contentType, contentEncoding, t⟩
          ∧ prev.lastModified < t
          ∧ (⟨log.length, content, contentType, contentEncoding, t⟩ : CacheEntry) ≠ prev) := by
  constructor
  · intro times htimes
    have h := foldl_regenerate_map content contentType contentEncoding times []
    simpa [runRegens, h] using htimes
  · intro log prev t hlatest ht
    refine ⟨?_, by omega, ?_⟩
    · simp [regenerate, List.concat_eq_append, get_latest]
    · intro h
      have : t = prev.lastModified := congrArg CacheEntry.lastModified h
      omega

/-- Witness for C4 at a concrete log and clock readings. -/
theorem c4_last_modified_monotone_witness :
    ((runRegens "payload" "application/json" "gzip" [100, 100, 105]).map
        CacheEntry.lastModified).Chain' (· ≤ ·)
    ∧ (get_latest (regenerate 101 "payload" "application/json" "gzip" [cacheA])
          = some ⟨1, "payload", "application/json", "gzip", 101⟩
        ∧ cacheA.lastModified < 101
        ∧ (⟨1, "payload", "application/json", "gzip", 101⟩ : CacheEntry) ≠ cacheA) :=
  ⟨(c4_last_modified_monotone "payload" "application/json" "gzip").1 [100, 100, 105]
      (by simp [List.chain'_cons]),
   (c4_last_modified_monotone "payload" "application/json" "gzip").2 [cacheA] cacheA 101
      rfl (by decide)⟩

/-- C10: increasing a version's download counter emits no cache
invalidation, while saving a hidden version or deleting a listing emits
exactly the `any_package_updated` invalidation. -/
theorem c10_invalidation_frame :
    (∀ v : PackageVersion, (increase_download_counter v).2 = []
        ∧ (increase_download_counter v).1.downloads = v.downloads + 1)
    ∧ (∀ (v : PackageVersion) (b : Bool),
        (save_version v b).2 = [CacheBustCondition.any_package_updated])
    ∧ (∀ l : PackageListing,
        delete_listing l = [CacheBustCondition.any_package_updated]) :=
  ⟨fun _ => ⟨rfl, rfl⟩, fun _ _ => rfl, fun _ => rfl⟩

theorem filter_deprecated_subset (s : Bool) (qs : List Package) :
    filter_deprecated s qs ⊆ qs := by
  unfold filter_deprecated
  split
  · exact fun a ha => ha
  · exact fun a ha => (List.mem_filter.mp ha).1

theorem filter_nsfw_subset (s : Bool) (qs : List Package) :
    filter_nsfw s qs ⊆ qs := by
  unfold filter_nsfw
  split
  · exact fun a ha => ha
  · exact fun a ha => (List.mem_filter.mp ha).1

theorem filter_in_categories_subset (ids : List Int) (qs : List Package) :
    filter_in_categories ids qs ⊆ qs := by
  unfold filter_in_categories
  split
  · exact fun a ha => ha
  · exact fun a ha => (List.mem_filter.mp ha).1

theorem filter_not_in_categories_subset (ids : List Int) (qs : List Package) :
    filter_not_in_categories ids qs ⊆ qs := by
  unfold filter_not_in_categories
  split
  · exact fun a ha => ha
  · exact fun a ha => (List.mem_filter.mp ha).1

theorem filter_by_section_subset (u : Option String)
    (sections : List PackageListingSection) (qs : List Package) :
    filter_by_section u sections qs ⊆ qs := by
  intro a ha
  cases u with
  | none => exact ha
  | some s =>
    unfold filter_by_section at ha
    dsimp only at ha
    split at ha
    · exact ha
    · exact filter_in_categories_subset _ _ (filter_not_in_categories_subset _ _ ha)

theorem filter_by_query_subset (q : Option String) (qs : List Package) :
    filter_by_query q qs ⊆ qs := by
  intro a ha
  cases q with
  | none => exact ha
  | some s =>
    unfold filter_by_query at ha
    dsimp only at ha
    split at ha
    · exact ha
    · split at ha
      · exact ha
      · exact (List.mem_filter.mp ha).1

theorem not_deprecated_of_mem_filter_deprecated (qs : List Package)
    (p : Package) (h : p ∈ filter_deprecated false qs) :
    p.isDeprecated = false := by
  simp [filter_deprecated, List.mem_filter] at h
  exact h.2

theorem not_nsfw_of_mem_filter_nsfw (qs : List Package) (p : Package)
    (h : p ∈ filter_nsfw false qs) :
    ∀ l ∈ p.communityListings, l.hasNsfwContent = false := by
  simp [filter_nsfw, List.mem_filter, List.any_eq_false] at h
  exact h.2

/-- C6: with no flags set the pipeline never returns a deprecated package
nor one with an NSFW listing, and on the three scenario packages the
default query returns only the plain one, `deprecated=true` additionally
returns the deprecated one, and `nsfw=true` additionally returns the NSFW
one. -/
theorem c6_flag_filters :
    (∀ (community : Community) (sections : List PackageListingSection)
        (params : QueryParams) (packages : List Package) (p : Package),
        p ∈ filter_queryset community sections params packages →
        (params.deprecated = false → p.isDeprecated = false)
        ∧ (params.nsfw = false → ∀ l ∈ p.communityListings, l.hasNsfwContent = false))
    ∧ filter_queryset exCommunity [] defaultParams [pDeprecated, pNsfw, pPlain] = [pPlain]
    ∧ filter_queryset exCommunity [] { defaultParams with deprecated := true }
        [pDeprecated, pNsfw, pPlain] = [pPlain, pDeprecated]
    ∧ filter_queryset exCommunity [] { defaultParams with nsfw := true }
        [pDeprecated, pNsfw, pPlain] = [pNsfw, pPlain] := by
  refine ⟨?_, by decide, by decide, by decide⟩
  intro community sections params packages p hp
  have hp1 : p ∈ filtered_queryset community sections params packages :=
    (List.perm_insertionSort _ _).subset hp
  unfold filtered_queryset at hp1
  have h5 := filter_in_categories_subset _ _
    (filter_not_in_categories_subset _ _
      (filter_by_section_subset _ _ _
        (filter_by_query_subset _ _ hp1)))
  constructor
  · intro hdep
    have h6 := filter_nsfw_subset _ _ h5
    rw [hdep] at h6
    exact not_deprecated_of_mem_filter_deprecated _ _ h6
  · intro hnsfw
    rw [hnsfw] at h5
    exact not_nsfw_of_mem_filter_nsfw _ _ h5

/-- Witness for C6: the general exclusions applied to the plain scenario
package under the default request. -/
theorem c6_flag_filters_witness :
    (defaultParams.deprecated = false → pPlain.isDeprecated = false)
    ∧ (defaultParams.nsfw = false →
        ∀ l ∈ pPlain.communityListings, l.hasNsfwContent = false) :=
  c6_flag_filters.1 exCommunity [] defaultParams [pDeprecated, pNsfw, pPlain]
    pPlain (by decide)

/-- C7: the review-status filter keeps a community-scoped package exactly
when its listing is approved (approval required) or approved/unreviewed
(approval not required). -/
theorem c7_review_status_filter (require_approval : Bool)
    (queryset : List Package) (p : Package) (l : PackageListing)
    (hl : p.communityListings = [l]) :
    p ∈ filter_by_review_status require_approval queryset ↔
      p ∈ queryset ∧
        (if require_approval then l.reviewStatus = .approved
         else l.reviewStatus = .approved ∨ l.reviewStatus = .unreviewed) := by
  cases require_approval <;>
    cases hs : l.reviewStatus <;>
      simp_all [filter_by_review_status, List.mem_filter, hl]

/-- Witness for C7: an approved listing passes the filter when approval is
not required. -/
theorem c7_review_status_filter_witness :
    exPkg ∈ filter_by_review_status false [exPkg] ↔
      exPkg ∈ [exPkg] ∧
        (if false then approvedListing.reviewStatus = .approved
         else approvedListing.reviewStatus = .approved
            ∨ approvedListing.reviewStatus = .unreviewed) :=
  c7_review_status_filter false [exPkg] exPkg approvedListing (by decide)

/-- C8: a section identifier that resolves to no section applies no
category restriction: the section filter is the identity and the whole
pipeline result equals the result of the same request without a section
parameter. -/
theorem c8_missing_section_no_restriction (u : String)
    (sections : List PackageListingSection) (community : Community)
    (params : QueryParams) (packages queryset : List Package)
    (hu : u ≠ "")
    (hfind : sections.find? (fun s => s.uuid == u) = none) :
    filter_by_section (some u) sections queryset = queryset
    ∧ filter_queryset community sections { params with sectionUuid := some u } packages
        = filter_queryset community sections { params with sectionUuid := none } packages := by
  have h1 : ∀ qs : List Package, filter_by_section (some u) sections qs = qs := by
    intro qs
    simp [filter_by_section, hu, hfind, filter_in_categories, filter_not_in_categories]
  refine ⟨h1 queryset, ?_⟩
  simp only [filter_queryset, filtered_queryset]
  rw [h1]
  rfl

/-- Witness for C8 at a concrete unmatched section identifier. -/
theorem c8_missing_section_no_restriction_witness :
    filter_by_section (some "deadbeef") [] [exPkg] = [exPkg]
    ∧ filter_queryset exCommunity [] { defaultParams with sectionUuid := some "deadbeef" } [exPkg]
        = filter_queryset exCommunity [] { defaultParams with sectionUuid := none } [exPkg] :=
  c8_missing_section_no_restriction "deadbeef" [] exCommunity defaultParams
    [exPkg] [exPkg] (by decide) rfl

theorem validateRequest_ok_shape (raw : RawRequest) (params : QueryParams)
    (h : validateRequest raw = Except.ok params) :
    (∀ s, raw.ordering = some s → orderKeyOfString s ≠ none)
    ∧ (∀ s, raw.page = some s → ∃ n, parseInt s = some n ∧ 1 ≤ n)
    ∧ (∃ e, parseIntList raw.excludedCategories = some e
        ∧ params.excludedCategories = sortInts e)
    ∧ (∃ i, parseIntList raw.includedCategories = some i
        ∧ params.includedCategories = sortInts i) := by
  unfold validateRequest at h
  simp only [bind, Except.bind, pure, Except.pure] at h
  repeat' split at h
  all_goals try injection h with h
  all_goals try (rw [← h]; clear h)
  all_goals simp_all

/-- C9: a request with an unknown ordering key, a page below 1 or a
non-integer page, or a non-integer category id is rejected with a client
error, and the (error) outcome is independent of the stored packages: no
result is ever produced from the data. -/
theorem c9_reject_malformed_before_query (raw : RawRequest)
    (h : (∃ s, raw.ordering = some s ∧ orderKeyOfString s = none)
       ∨ (∃ s, raw.page = some s ∧ ∀ n, parseInt s = some n → n < 1)
       ∨ parseIntList raw.excludedCategories = none
       ∨ parseIntList raw.includedCategories = none)
    (community : Community) (sections : List PackageListingSection)
    (packages packages' : List Package) :
    (list_packages community sections packages raw).isOk = false
    ∧ list_packages community sections packages raw
        = list_packages community sections packages' raw := by
  cases hv : validateRequest raw with
  | error e =>
    constructor <;> simp [list_packages, hv, bind, Except.bind, Except.isOk, Except.toBool]
  | ok params =>
    exfalso
    obtain ⟨h1, h2, ⟨e, he, _⟩, ⟨i, hi, _⟩⟩ := validateRequest_ok_shape raw params hv
    rcases h with ⟨s, hs, ho⟩ | ⟨s, hs, hp⟩ | hex | hinc
    · exact (h1 s hs) ho
    · obtain ⟨n, hn, hge⟩ := h2 s hs
      have := hp n hn
      omega
    · rw [hex] at he
      exact Option.noConfusion he
    · rw [hinc] at hi
      exact Option.noConfusion hi

/-- Witness for C9: the concrete request with ordering "alphabetical" is
rejected regardless of the package data. -/
theorem c9_reject_malformed_before_query_witness :
    (list_packages exCommunity [] [exPkg] rawBadOrdering).isOk = false
    ∧ list_packages exCommunity [] [exPkg] rawBadOrdering
        = list_packages exCommunity [] [] rawBadOrdering :=
  c9_reject_malformed_before_query rawBadOrdering
    (Or.inl ⟨"alphabetical", rfl, rfl⟩) exCommunity [] [exPkg] []

theorem sortInts_sorted (l : List Int) : (sortInts l).Sorted (· ≤ ·) :=
  List.sorted_insertionSort _ l

theorem sortInts_perm (l : List Int) : (sortInts l).Perm l :=
  List.perm_insertionSort _ l

theorem sortInts_eq_of_perm (l₁ l₂ : List Int) (h : l₁.Perm l₂) :
    sortInts l₁ = sortInts l₂ :=
  List.eq_of_perm_of_sorted
    ((sortInts_perm l₁).trans (h.trans (sortInts_perm l₂).symm))
    (sortInts_sorted l₁) (sortInts_sorted l₂)

theorem paginate_items_length_le (page_size num : Nat) (results : List Package)
    (pr : PageResult) (h : paginate page_size num results = some pr) :
    pr.items.length ≤ page_size := by
  unfold paginate at h
  dsimp only at h
  split at h
  · injection h with h
    rw [← h]
    simp [List.length_take]
  · exact Option.noConfusion h

/-- C5: every successful response page holds at most the fixed page size
of 20 results; on page 2 of a three-page result set the previous and next
links are both present, built from the same canonical parameters with the
page value decremented and incremented; validated category lists are
always sorted, and two requests whose category lists are permutations of
each other (all else equal) validate to identical parameters, hence yield
identical sibling links. -/
theorem c5_pagination_and_links :
    (∀ (base : String) (community : Community)
        (sections : List PackageListingSection) (packages : List Package)
        (raw : RawRequest) (resp : ListResponse),
        list_endpoint base community sections packages raw = Except.ok (some resp) →
        resp.results.length ≤ PAGE_SIZE)
    ∧ (∀ (base : String) (params : QueryParams) (queryset : List Package)
        (pr : PageResult),
        params.page = 2 → 40 < queryset.length → queryset.length ≤ 60 →
        paginate PAGE_SIZE params.page queryset = some pr →
        get_sibling_pages base params pr =
          (some (base ++ "?" ++ urlencodeParams { params with page := 1 }),
           some (base ++ "?" ++ urlencodeParams { params with page := 3 })))
    ∧ (∀ (raw : RawRequest) (params : QueryParams),
        validateRequest raw = Except.ok params →
        params.excludedCategories.Sorted (· ≤ ·)
        ∧ params.includedCategories.Sorted (· ≤ ·))
    ∧ (∀ (raw₁ raw₂ : RawRequest) (e₁ e₂ i₁ i₂ : List Int),
        raw₁.deprecated = raw₂.deprecated → raw₁.nsfw = raw₂.nsfw →
        raw₁.ordering = raw₂.ordering → raw₁.page = raw₂.page →
        raw₁.q = raw₂.q → raw₁.sectionUuid = raw₂.sectionUuid →
        parseIntList raw₁.excludedCategories = some e₁ →
        parseIntList raw₂.excludedCategories = some e₂ → e₁.Perm e₂ →
        parseIntList raw₁.includedCategories = some i₁ →
        parseIntList raw₂.includedCategories = some i₂ → i₁.Perm i₂ →
        validateRequest raw₁ = validateRequest raw₂) := by
  refine ⟨?_, ?_, ?_, ?_⟩
  · intro base community sections packages raw resp h
    unfold list_endpoint at h
    simp only [bind, Except.bind] at h
    cases hv : validateRequest raw with
    | error e =>
      rw [hv] at h
      exact Except.noConfusion h
    | ok params =>
      rw [hv] at h
      dsimp only at h
      cases hp : paginate PAGE_SIZE params.page
          (filter_queryset community sections params packages) with
      | none =>
        rw [hp] at h
        simp [pure, Except.pure] at h
      | some pg =>
        rw [hp] at h
        simp only [pure, Except.pure] at h
        injection h with h
        injection h with h
        rw [← h]
        exact paginate_items_length_le PAGE_SIZE params.page _ pg hp
  · intro base params queryset pr hpage hlow hhigh hp
    have hnp : max 1 ((queryset.length + PAGE_SIZE - 1) / PAGE_SIZE) = 3 := by
      unfold PAGE_SIZE
      omega
    unfold paginate at hp
    dsimp only at hp
    rw [hpage, hnp] at hp
    rw [if_pos ⟨by omega, by omega⟩] at hp
    injection hp with hp
    rw [← hp]
    unfold get_sibling_pages
    norm_num
  · intro raw params hv
    obtain ⟨-, -, ⟨e, -, hex⟩, ⟨i, -, hinc⟩⟩ := validateRequest_ok_shape raw params hv
    constructor
    · rw [hex]
      exact sortInts_sorted e
    · rw [hinc]
      exact sortInts_sorted i
  · intro raw₁ raw₂ e₁ e₂ i₁ i₂ hd hn ho hp hq hs he₁ he₂ hpe hi₁ hi₂ hpi
    unfold validateRequest
    simp only [bind, Except.bind, pure, Except.pure]
    rw [hd, hn, ho, hp, hq, hs, he₁, he₂, hi₁, hi₂]
    dsimp only
    rw [sortInts_eq_of_perm e₁ e₂ hpe, sortInts_eq_of_perm i₁ i₂ hpi]

/-- Witness for C5 at concrete requests: a one-package default request, a
page-2-of-3 pagination state, and the permuted category lists "3","1" vs
"1","3". -/
theorem c5_pagination_and_links_witness :
    ((⟨1, none, none, [pPlain]⟩ : ListResponse).results.length ≤ PAGE_SIZE)
    ∧ get_sibling_pages "b" paramsPage2 ⟨List.replicate 20 pPlain, 2, 45, 3⟩ =
        (some ("b" ++ "?" ++ urlencodeParams { paramsPage2 with page := 1 }),
         some ("b" ++ "?" ++ urlencodeParams { paramsPage2 with page := 3 }))
    ∧ ((⟨false, [1, 3], [], false, .lastUpdated, 1, none, none⟩ :
          QueryParams).excludedCategories.Sorted (· ≤ ·)
        ∧ (⟨false, [1, 3], [], false, .lastUpdated, 1, none, none⟩ :
          QueryParams).includedCategories.Sorted (· ≤ ·))
    ∧ validateRequest rawPermA = validateRequest rawPermB :=
  ⟨c5_pagination_and_links.1 "b" exCommunity [] [pPlain] rawEmpty
      ⟨1, none, none, [pPlain]⟩ rfl,
   c5_pagination_and_links.2.1 "b" paramsPage2 (List.replicate 45 pPlain)
      ⟨List.replicate 20 pPlain, 2, 45, 3⟩ rfl (by decide) (by decide) rfl,
   c5_pagination_and_links.2.2.1 rawPermA
      ⟨false, [1, 3], [], false, .lastUpdated, 1, none, none⟩ rfl,
   c5_pagination_and_links.2.2.2 rawPermA rawPermB [3, 1] [1, 3] [] []
      rfl rfl rfl rfl rfl rfl rfl rfl (by decide) rfl rfl (by decide)⟩

end Thunderstore
